import Mathlib

/-!
Verification development for the three-stage conversational orchestrator in
`backend/voice_server.py`, `backend/journal.py`, `backend/detail.py` and
`backend/yaml_helper.py`.

The Python code is shallowly embedded: strings are Lean `String`s (lists of
characters), Python `None`-able values are `Option`s, the remote text-completion
gateway and the filesystem are modelled as explicit environment records whose
fields hold the outcome of each external call (`Except Unit String` for a call
that either raises or returns text).  Python dictionaries produced by
`json.loads` are modelled by the inductive type `Json` below together with a
fuelled parser covering the JSON fragment the program exchanges (objects,
arrays, strings with the common escapes, integers, booleans, null).
-/

/-! ## Character-list utilities mirroring the Python string operations used -/

/-- `startsSeq needle hay` is true when `hay` begins with `needle`. -/
def startsSeq : List Char → List Char → Bool
  | [], _ => true
  | _ :: _, [] => false
  | a :: as, b :: bs => a == b && startsSeq as bs

/-- `containsSeq hay needle` mirrors Python `needle in hay` (substring test;
an empty needle is contained in everything). -/
def containsSeq (hay needle : List Char) : Bool :=
  match hay with
  | [] => needle.isEmpty
  | c :: t => startsSeq needle (c :: t) || containsSeq t needle

/-- First index at which `needle` occurs inside `hay`, if any. -/
def findSeq (hay needle : List Char) : Option Nat :=
  match hay with
  | [] => if needle.isEmpty then some 0 else none
  | c :: t =>
    if startsSeq needle (c :: t) then some 0
    else (findSeq t needle).map (· + 1)

/-- Python `needle in hay` on strings. -/
def pySubstr (needle hay : String) : Bool :=
  containsSeq hay.data needle.data

/-- ASCII lowercasing, mirroring `str.lower()` on the ASCII inputs the
program manipulates. -/
def lowerStr (s : String) : String :=
  ⟨s.data.map Char.toLower⟩

/-- Whitespace characters stripped by Python `str.strip()` (ASCII fragment). -/
def isPySpace (c : Char) : Bool :=
  c == ' ' || c == '\t' || c == '\n' || c == '\r' || c == '\x0b' || c == '\x0c'

/-- Python `str.strip()`. -/
def pyStrip (s : String) : String :=
  ⟨((s.data.dropWhile isPySpace).reverse.dropWhile isPySpace).reverse⟩

/-- Python `str.rstrip()`. -/
def pyRstrip (s : String) : String :=
  ⟨(s.data.reverse.dropWhile isPySpace).reverse⟩

/-- Python `str.capitalize()`: first character upper-cased, the rest lower-cased. -/
def pyCapitalize (s : String) : String :=
  match s.data with
  | [] => ""
  | c :: t => ⟨c.toUpper :: t.map Char.toLower⟩

/-- Python `str.splitlines()` restricted to the `\n`, `\r\n` and `\r`
terminators (the program only ever feeds it model text using these). -/
def splitLinesAux : List Char → List Char → List String
  | [], acc => [⟨acc.reverse⟩]
  | '\r' :: '\n' :: t, acc => ⟨acc.reverse⟩ :: splitLinesAux t []
  | '\n' :: t, acc => ⟨acc.reverse⟩ :: splitLinesAux t []
  | '\r' :: t, acc => ⟨acc.reverse⟩ :: splitLinesAux t []
  | c :: t, acc => splitLinesAux t (c :: acc)

def pySplitLines (s : String) : List String :=
  splitLinesAux s.data []

/-! ## JSON values and the fragment of `json.loads` the program relies on -/

/-- JSON values as produced by `json.loads` on the fragment the program
exchanges with the model (numbers restricted to integers). -/
inductive Json where
  | null
  | bool (b : Bool)
  | num (n : Int)
  | str (s : String)
  | arr (elems : List Json)
  | obj (fields : List (String × Json))

/-- Python truthiness of a decoded JSON value. -/
def pyTruthy : Json → Bool
  | .null => false
  | .bool b => b
  | .num n => n != 0
  | .str s => s != ""
  | .arr l => !l.isEmpty
  | .obj l => !l.isEmpty

/-- `isinstance(v, dict)`. -/
def isDict : Json → Bool
  | .obj _ => true
  | _ => false

/-- Association lookup used for `dict.get(key)` (keys are unique because the
parser overwrites duplicates, as `json.loads` does). -/
def jlookup : List (String × Json) → String → Option Json
  | [], _ => none
  | (k0, v0) :: t, k => if k0 == k then some v0 else jlookup t k

/-- Python `d.get(key)` on a decoded object (`None` when absent or when the
value is not a dict). -/
def jget : Json → String → Option Json
  | .obj fields, k => jlookup fields k
  | _, _ => none

/-- `obj.get("type") == t` for a string `t` (a missing or non-string field
compares unequal, as in Python). -/
def typeIs (v : Json) (t : String) : Bool :=
  match jget v "type" with
  | some (.str s) => s == t
  | _ => false

/-- JSON whitespace. -/
def isJsonWs (c : Char) : Bool :=
  c == ' ' || c == '\t' || c == '\n' || c == '\r'

def skipWs : List Char → List Char
  | [] => []
  | c :: t => if isJsonWs c then skipWs t else c :: t

/-- Body of a JSON string literal (after the opening quote), handling the
common escapes used by the payloads of the program. -/
def parseStrBody : Nat → List Char → List Char → Option (String × List Char)
  | 0, _, _ => none
  | _ + 1, [], _ => none
  | f + 1, c :: t, acc =>
    if c == '"' then some (⟨acc.reverse⟩, t)
    else if c == '\\' then
      match t with
      | [] => none
      | e :: t2 =>
        if e == '"' then parseStrBody f t2 ('"' :: acc)
        else if e == '\\' then parseStrBody f t2 ('\\' :: acc)
        else if e == '/' then parseStrBody f t2 ('/' :: acc)
        else if e == 'n' then parseStrBody f t2 ('\n' :: acc)
        else if e == 't' then parseStrBody f t2 ('\t' :: acc)
        else if e == 'r' then parseStrBody f t2 ('\r' :: acc)
        else none
    else parseStrBody f t (c :: acc)

def takeDigits : List Char → List Char × List Char
  | [] => ([], [])
  | c :: t =>
    if c.isDigit then
      let (ds, r) := takeDigits t
      (c :: ds, r)
    else ([], c :: t)

def digitsToNat (l : List Char) : Nat :=
  l.foldl (fun a c => a * 10 + (c.toNat - 48)) 0

def parseNum (l : List Char) : Option (Json × List Char) :=
  match l with
  | '-' :: t =>
    match takeDigits t with
    | ([], _) => none
    | (ds, r) => some (.num (-(Int.ofNat (digitsToNat ds))), r)
  | _ =>
    match takeDigits l with
    | ([], _) => none
    | (ds, r) => some (.num (Int.ofNat (digitsToNat ds)), r)

/-- Insert a key into an object under construction, overwriting an existing
binding in place (the behavior of `json.loads` on duplicate keys). -/
def insertKey : List (String × Json) → String → Json → List (String × Json)
  | [], k, v => [(k, v)]
  | (k0, v0) :: t, k, v =>
    if k0 == k then (k0, v) :: t else (k0, v0) :: insertKey t k v

mutual

def parseVal : Nat → List Char → Option (Json × List Char)
  | 0, _ => none
  | f + 1, l =>
    match skipWs l with
    | [] => none
    | c :: t =>
      if c == '"' then
        match parseStrBody (t.length + 1) t [] with
        | some (s, r) => some (.str s, r)
        | none => none
      else if c == '{' then
        match skipWs t with
        | '}' :: r => some (.obj [], r)
        | rest => parseMembers f rest []
      else if c == '[' then
        match skipWs t with
        | ']' :: r => some (.arr [], r)
        | rest => parseElems f rest []
      else if c == 't' then
        match t with
        | 'r' :: 'u' :: 'e' :: r => some (.bool true, r)
        | _ => none
      else if c == 'f' then
        match t with
        | 'a' :: 'l' :: 's' :: 'e' :: r => some (.bool false, r)
        | _ => none
      else if c == 'n' then
        match t with
        | 'u' :: 'l' :: 'l' :: r => some (.null, r)
        | _ => none
      else parseNum (c :: t)

def parseElems : Nat → List Char → List Json → Option (Json × List Char)
  | 0, _, _ => none
  | f + 1, l, acc =>
    match parseVal f l with
    | none => none
    | some (v, r) =>
      match skipWs r with
      | ',' :: r2 => parseElems f r2 (v :: acc)
      | ']' :: r2 => some (.arr (v :: acc).reverse, r2)
      | _ => none

def parseMembers : Nat → List Char → List (String × Json) → Option (Json × List Char)
  | 0, _, _ => none
  | f + 1, l, acc =>
    match skipWs l with
    | '"' :: t =>
      match parseStrBody (t.length + 1) t [] with
      | none => none
      | some (k, r) =>
        match skipWs r with
        | ':' :: r2 =>
          match parseVal f r2 with
          | none => none
          | some (v, r3) =>
            match skipWs r3 with
            | ',' :: r4 => parseMembers f r4 (insertKey acc k v)
            | '}' :: r4 => some (.obj (insertKey acc k v), r4)
            | _ => none
        | _ => none
    | _ => none

end

/-- `json.loads` on the modelled fragment: one value, optionally surrounded by
whitespace; anything trailing makes the parse fail, as in Python. -/
def parseJson (s : String) : Option Json :=
  match parseVal (2 * s.data.length + 8) s.data with
  | none => none
  | some (v, r) => if (skipWs r).isEmpty then some v else none

/-! ## Fenced-block extraction (`_extract_yaml_from_fence`, `_extract_json_from_fence`)

Both Python helpers search with `re.search(r"```TAG\s*(.*?)```", text, DOTALL | IGNORECASE)`:
the leftmost occurrence of the (case-insensitively matched) opening tag that is
followed by a closing triple backtick; the captured group is everything strictly
between them (backtracking over `\s*` only moves whitespace into the lazy group,
which the subsequent `strip` / `json.loads` treats identically). -/

/-- Content of the first fenced block with the given tag, if any. -/
def fenceInner (tag : String) (text : String) : Option (List Char) :=
  let lower := text.data.map Char.toLower
  match findSeq lower ("```" ++ tag).data with
  | none => none
  | some i =>
    let rest := text.data.drop (i + 3 + tag.data.length)
    match findSeq rest "```".data with
    | none => none
    | some j => some (rest.take j)

/-- `_extract_yaml_from_fence` (`yaml_helper.py`): trimmed content of the first
yaml fence. -/
def extract_yaml_from_fence (text : String) : Option String :=
  (fenceInner "yaml" text).map (fun l => pyStrip ⟨l⟩)

/-- `_extract_json_from_fence` (`journal.py` / `detail.py` / `yaml_helper.py`):
parse the first json fence with `json.loads`; `None` when no fence exists or the
parse fails. -/
def extract_json_from_fence (text : String) : Option Json :=
  (fenceInner "json" text).bind (fun l => parseJson ⟨l⟩)

/-! ## `_is_problem_heuristic` (`journal.py`) -/

def failure_keywords : List String :=
  ["fail", "error", "crash", "broken", "timeout", "exception", "http 5", "http 4"]
def repetitive_keywords : List String :=
  ["every time", "keep having to", "repetitive", "manual", "constantly", "always", "repeatedly"]
def blocked_keywords : List String :=
  ["stuck", "can\x27t", "blocked", "unable to", "preventing me from"]
def reliability_keywords : List String :=
  ["flaky", "randomly fails", "too slow", "unreliable", "intermittent"]
def automation_keywords : List String :=
  ["alert", "monitor", "automate", "notify", "watch for", "set up alerts"]
def time_waste_keywords : List String :=
  ["takes forever", "waste time", "spend hours", "tedious", "annoying"]

/-- Number of distinct signal categories whose keywords occur in the
(lower-cased) text `t`. -/
def categoriesFound (t : String) : Nat :=
  (if failure_keywords.any (fun k => pySubstr k t) then 1 else 0) +
  (if repetitive_keywords.any (fun k => pySubstr k t) then 1 else 0) +
  (if blocked_keywords.any (fun k => pySubstr k t) then 1 else 0) +
  (if reliability_keywords.any (fun k => pySubstr k t) then 1 else 0) +
  (if automation_keywords.any (fun k => pySubstr k t) then 1 else 0) +
  (if time_waste_keywords.any (fun k => pySubstr k t) then 1 else 0)

/-- `_is_problem_heuristic`: at least two distinct problem categories must be
present in the lower-cased text (empty text is immediately rejected). -/
def is_problem_heuristic (text : String) : Bool :=
  if text == "" then false
  else decide (2 ≤ categoriesFound (lowerStr text))

/-! ## Python truthiness helpers for optional values -/

/-- Truthiness of a `str | None` value. -/
def optStrTruthy : Option String → Bool
  | none => false
  | some s => s != ""

/-- Truthiness of a `dict | None` value (a decoded JSON object). -/
def optJsonTruthy : Option Json → Bool
  | none => false
  | some j => pyTruthy j

/-- `x or default` for `x : str | None`. -/
def pyOrStr (x : Option String) (dflt : String) : String :=
  match x with
  | some s => if s == "" then dflt else s
  | none => dflt

/-- `x or default` for a plain string `x`. -/
def pyOrStr' (x : String) (dflt : String) : String :=
  if x == "" then dflt else x

/-- `problem_brief or {}` for `problem_brief : dict | None`. -/
def pyOrEmptyObj (x : Option Json) : Json :=
  match x with
  | some j => if pyTruthy j then j else .obj []
  | none => .obj []

/-- `[q] if q else None` for `q : str | None`. -/
def pendingFromOpt (q : Option String) : Option (List String) :=
  match q with
  | some s => if s == "" then none else some [s]
  | none => none

/-- `[q] if q else None` for a plain string `q`. -/
def pendingFromStr (q : String) : Option (List String) :=
  if q == "" then none else some [q]

/-- `qs = obj.get("questions") or []; qs[0] if qs else dflt`, on the modelled
fragment in which the `questions` field, when present, is an array whose
entries are strings. -/
def firstQuestionOr (obj : Json) (dflt : String) : String :=
  match jget obj "questions" with
  | some (.arr (.str q :: _)) => q
  | _ => dflt

/-! ## Stage environments

Each stage calls the remote completion gateway through
`_call_model_with_system`; the gateway and the filesystem are external, so
their outcomes are supplied as explicit parameters: `Except Unit String` is a
call that either raises (`error`) or returns the response text (`ok`).  The
request payloads (prompt serialization, `json.dumps` of the intermediate
objects) only shape what is sent to the gateway and are absorbed into the
supplied outcome. -/

/-- External outcomes consumed by one `run_journal` call: the journal-stage
model call, the read of `prompt_yaml.md` performed by the direct-YAML
shortcut, and the model call made by the nested `run_yaml`. -/
structure JournalEnv where
  call : Except Unit String
  yamlPromptRead : Except Unit String
  yamlCall : Except Unit String

/-! ## `run_yaml` (`yaml_helper.py`) -/

/-- `run_yaml(detail_spec, prompt_yaml, ...) -> (missing_question | None, yaml_text | None)`.
The `detail_spec` argument only feeds the gateway payload. -/
def run_yaml (detail_spec : Json) (prompt_yaml : Option String)
    (call : Except Unit String) : Option String × Option String :=
  if !optStrTruthy prompt_yaml then (none, none)
  else
    match call with
    | .error _ =>
      (some "I need one more detail to finalize the YAML (service, schedule, or actions).", none)
    | .ok content =>
      match extract_yaml_from_fence content with
      | some y =>
        if y == "" then
          match extract_json_from_fence content with
          | some obj =>
            if pyTruthy obj && isDict obj && typeIs obj "MissingInfoRequest" then
              (some (firstQuestionOr obj "I need one more detail to finalize the YAML."), none)
            else (none, some (pyStrip content))
          | none => (none, some (pyStrip content))
        else (none, some y)
      | none =>
        match extract_json_from_fence content with
        | some obj =>
          if pyTruthy obj && isDict obj && typeIs obj "MissingInfoRequest" then
            (some (firstQuestionOr obj "I need one more detail to finalize the YAML."), none)
          else (none, some (pyStrip content))
        | none => (none, some (pyStrip content))

/-! ## `run_detail` (`detail.py`) -/

/-- `run_detail(problem_brief, recent_user, current_spec, prompt_detail, ...)
-> (follow_up | None, spec | None)`.  `problem_brief`, `recent_user` and
`current_spec` only feed the gateway payload. -/
def run_detail (problem_brief : Json) (recent_user : String) (current_spec : Option Json)
    (prompt_detail : Option String) (call : Except Unit String) :
    Option String × Option Json :=
  if !optStrTruthy prompt_detail then (none, none)
  else
    match call with
    | .error _ => (some "Could you clarify a couple details (service, frequency, action)?", none)
    | .ok content =>
      match extract_json_from_fence content with
      | some obj =>
        if pyTruthy obj && isDict obj then
          if typeIs obj "FollowUpQuestion" then
            (some (firstQuestionOr obj "Could you share more details?"), none)
          else if typeIs obj "DetailSpec" then (none, some obj)
          else (some (pyStrip content), none)
        else (some (pyStrip content), none)
      | none => (some (pyStrip content), none)

/-! ## `run_journal` (`journal.py`) -/

/-- The `detail_spec` dictionary built by the direct-YAML shortcut of
`run_journal` from an accepted brief. -/
def briefToDetailSpec (brief : Json) (user_text : String) : Json :=
  .obj [("problem_summary", (jget brief "summary").getD (.str "")),
        ("category", (jget brief "category").getD (.str "other")),
        ("signals", (jget brief "signals").getD (.arr [])),
        ("user_context", .str user_text)]

/-- `re.sub(r"```[\s\S]*?```", "", content)`: repeatedly delete the leftmost
triple-backtick pair together with everything between. -/
def removeFences : Nat → List Char → List Char
  | 0, l => l
  | f + 1, l =>
    match findSeq l "```".data with
    | none => l
    | some i =>
      let pre := l.take i
      let rest := l.drop (i + 3)
      match findSeq rest "```".data with
      | none => l
      | some j => pre ++ removeFences f (rest.drop (j + 3))

/-- Summary fallback of `run_journal`: strip fenced blocks, keep the non-empty
stripped lines, and either join the first three bullet entries into one
capitalized sentence or return the first line. -/
def journalSummary (content : String) : String :=
  let sanitized := pyStrip ⟨removeFences content.data.length content.data⟩
  let lines := ((pySplitLines sanitized).map pyStrip).filter (fun ln => ln != "")
  match lines with
  | [] => "Noted."
  | first :: _ =>
    if startsSeq "- ".data first.data then
      let bullet_text := " ".intercalate ((lines.take 3).map (fun ln => ⟨ln.data.drop 2⟩))
      pyCapitalize bullet_text ++ "."
    else first

/-- `run_journal(user_text, prompt_journal, ...) ->
(summary_text, problem_brief | None, yaml_content | None)` — note the THREE
components; the enhanced journal stage also runs the YAML generator directly
when it accepts a brief.

Source caveat: right after the gateway call the source invokes a logging
helper `_log` (journal.py:96/98) that is defined nowhere in the repository,
so in the program as written every successful call raises `NameError`, which
the blanket `except` at journal.py:149 swallows into `("Noted.", None, None)`
— the extraction and gating code below the call is currently unreachable, and
the source never actually returns a brief.  The definition here elides the
(side-effect-only) logging statements and translates those branches as
written.  This idealization cannot make the only-when gating property easier
(removing brief-returns can only strengthen it), and the turn-level behavior
of the route is insensitive to it: the 2-name unpacking at
voice_server.py:605 raises on every 3-tuple alike, whatever `run_journal`
returns. -/
def run_journal (user_text : String) (prompt_journal : Option String)
    (env : JournalEnv) : String × Option Json × Option String :=
  if !optStrTruthy prompt_journal then ("Noted.", none, none)
  else
    match env.call with
    | .error _ => ("Noted.", none, none)
    | .ok content =>
      match extract_json_from_fence content with
      | some brief =>
        if pyTruthy brief && isDict brief && typeIs brief "ProblemBrief" &&
            is_problem_heuristic user_text then
          match env.yamlPromptRead with
          | .error _ =>
            ("I detected a problem worth automating. I\x27ll dig into details.", some brief, none)
          | .ok yaml_prompt =>
            let (_missing, yaml_text) :=
              run_yaml (briefToDetailSpec brief user_text) (some yaml_prompt) env.yamlCall
            if optStrTruthy yaml_text then
              ("I detected a problem and generated an AI agent configuration for you.",
               some brief, yaml_text)
            else
              ("I detected a problem worth automating. I\x27ll need a few more details to generate the agent.",
               some brief, none)
        else (journalSummary content, none, none)
      | none => (journalSummary content, none, none)

/-! ## Orchestrator state (`orchestrator_state` in `voice_server.py`) -/

/-- The values the `"phase"` slot takes (`None | "detail" | "yaml"` in the
source; `None` is the surrounding `Option`). -/
inductive Phase where
  | detail
  | yaml
deriving DecidableEq

structure OState where
  phase : Option Phase
  pending_questions : Option (List String)
  problem_brief : Option Json
  detail_spec : Option Json
  ready_yaml : Option String

/-- The reset dictionary assigned after confirmation or decline. -/
def emptyState : OState :=
  ⟨none, none, none, none, none⟩

/-- Truthiness of the `pending_questions` slot (`list | None`). -/
def truthyQs : Option (List String) → Bool
  | none => false
  | some l => !l.isEmpty

/-- `orchestrator_state.get("phase") == "yaml" and orchestrator_state.get("ready_yaml")`. -/
def phaseYamlAndReady (s : OState) : Bool :=
  (s.phase == some .yaml) && optStrTruthy s.ready_yaml

/-- The three phases of the `SessionState` of the specification, recovered from the
implementation state: a session is listening when no question is pending,
awaiting confirmation when the pending question guards a ready artifact in the
yaml phase, and awaiting a detail answer otherwise. -/
inductive SpecPhase where
  | listening
  | awaitingDetailAnswer
  | awaitingYamlConfirmation
deriving DecidableEq

def specPhase (s : OState) : SpecPhase :=
  if truthyQs s.pending_questions then
    if phaseYamlAndReady s then .awaitingYamlConfirmation
    else .awaitingDetailAnswer
  else .listening

/-! ## The `/conversation` turn -/

/-- A file written to durable storage during a turn. -/
structure FileWrite where
  path : String
  content : String

/-- Outcome of one `/conversation` request: the conversational reply
(`jsonify({"response": ...})`), the 400 returned for empty input, or the 500
produced by the catch-all `except` of the route. -/
inductive TurnOutcome where
  | reply (response : String)
  | badRequest (message : String)
  | serverError (message : String)

/-- External outcomes consumed by one turn. `savePath` is the path
`_save_generated_yaml` would produce when the directory creation and file
write succeed (`none` when the filesystem raises). -/
structure TurnEnv where
  journal : JournalEnv
  detailCall : Except Unit String
  yamlCall : Except Unit String
  savePath : Option String

/-- `_save_generated_yaml`: persist `yaml_text.rstrip() + "\n"` and return the
path, or return `""` when writing raised; the second component records the
write actually performed. -/
def save_generated_yaml (savePath : Option String) (yaml_text : String) :
    String × List FileWrite :=
  match savePath with
  | some p => (p, [⟨p, pyRstrip yaml_text ++ "\n"⟩])
  | none => ("", [])

def affirmTokens : List String :=
  ["yes", "yep", "ok", "okay", "proceed", "go ahead", "generate", "do it", "sure"]

def negTokens : List String :=
  ["no", "not now", "later", "stop", "cancel"]

def confirmQuestion : String :=
  "I have enough information to generate the YAML. Should I proceed to generate it now?"

/-- Confirmation handling (`voice_server.py` 554-567): the user reply is
stripped and lower-cased, then matched by substring against the affirmative
tokens first and the negative tokens second; anything else re-prompts with a
fixed question and leaves the state untouched. -/
def confirmationStep (st : OState) (user_text : String) (env : TurnEnv) :
    TurnOutcome × OState × List FileWrite :=
  let answer := lowerStr (pyStrip user_text)
  if affirmTokens.any (fun x => pySubstr x answer) then
    let (saved_path, writes) := save_generated_yaml env.savePath (st.ready_yaml.getD "")
    let resp :=
      if saved_path == "" then "I attempted to generate the YAML, but saving to disk failed."
      else "YAML generated and saved to: " ++ saved_path
    (.reply resp, emptyState, writes)
  else if negTokens.any (fun x => pySubstr x answer) then
    (.reply "Okay, I won\x27t generate the YAML right now.", emptyState, [])
  else
    (.reply "Would you like me to generate the YAML now? (yes/no)", st, [])

/-- The block shared verbatim by lines 580-602 and 624-646 of
`voice_server.py`: a spec was produced, so store it, run the generator, and
either stage the artifact behind the confirmation question or keep asking for
the missing detail. -/
def specToYaml (st : OState) (spec : Json) (prompt_yaml : Option String)
    (call : Except Unit String) : TurnOutcome × OState × List FileWrite :=
  let st1 := { st with detail_spec := some spec }
  let (missing, yaml_text) := run_yaml spec prompt_yaml call
  if optStrTruthy yaml_text then
    (.reply confirmQuestion,
     { st1 with ready_yaml := yaml_text, phase := some .yaml,
                pending_questions := some [confirmQuestion] }, [])
  else
    (.reply (pyOrStr missing "I need one more detail to finish the YAML."),
     { st1 with pending_questions := pendingFromOpt missing, phase := some .yaml }, [])

/-- Answer handling (`voice_server.py` 569-602): the user text is treated as an
answer for the detail stage. -/
def answerStep (st : OState) (user_text : String) (prompt_detail prompt_yaml : Option String)
    (env : TurnEnv) : TurnOutcome × OState × List FileWrite :=
  let (follow_up, spec) :=
    run_detail (pyOrEmptyObj st.problem_brief) user_text st.detail_spec prompt_detail env.detailCall
  if optJsonTruthy spec then
    specToYaml st (spec.getD (.obj [])) prompt_yaml env.yamlCall
  else
    (.reply (pyOrStr follow_up "Could you clarify a couple details?"),
     { st with pending_questions := pendingFromOpt follow_up, phase := some .detail }, [])

/-- `s.replace(pat, "")`: delete every occurrence of `pat` (left to right). -/
def removeAllSub : Nat → List Char → List Char → List Char
  | 0, l, _ => l
  | f + 1, l, pat =>
    match findSeq l pat with
    | none => l
    | some i => l.take i ++ removeAllSub f (l.drop (i + pat.length)) pat

/-- Python tuple unpacking `journal_text, brief = journal_run(...)`
(`voice_server.py` 605): `run_journal` returns a 3-tuple
`(summary, brief, yaml)`, so binding it to two names raises
`ValueError: too many values to unpack (expected 2)` for every value it can
take; the outer `except` of the route turns that into a 500 error response. -/
def unpackJournalPair (t : String × Option Json × Option String) :
    Except String (String × Option Json) :=
  match t with
  | (_, _, _) => .error "too many values to unpack (expected 2)"

/-- Listening handling (`voice_server.py` 604-649): start with the journal
stage.  The continuation after the 2-name unpacking is translated as written,
although it is unreachable because the unpacking always raises. -/
def listeningStep (st : OState) (user_text : String)
    (prompt_journal prompt_detail prompt_yaml : Option String) (env : TurnEnv) :
    TurnOutcome × OState × List FileWrite :=
  match unpackJournalPair (run_journal user_text prompt_journal env.journal) with
  | .error e => (.serverError e, st, [])
  | .ok (journal_text, brief) =>
    if optJsonTruthy brief then
      let st0 := { st with problem_brief := brief }
      let (_follow_up, spec) :=
        run_detail (brief.getD (.obj [])) user_text none prompt_detail env.detailCall
      if optJsonTruthy spec then
        specToYaml st0 (spec.getD (.obj [])) prompt_yaml env.yamlCall
      else
        (.reply (pyOrStr' journal_text "A quick question to clarify the problem."),
         { st0 with pending_questions := pendingFromStr journal_text, phase := some .detail }, [])
    else
      let base := pyOrStr' journal_text "Noted."
      (.reply ⟨removeAllSub base.data.length base.data "```".data⟩, st, [])

/-- One `/conversation` turn (`voice_server.py` 517-674), restricted to the
orchestrator core: returns the HTTP outcome, the orchestrator state after the
turn, and the files persisted during the turn. -/
def conversation (st : OState) (user_text : String)
    (prompt_journal prompt_detail prompt_yaml : Option String) (env : TurnEnv) :
    TurnOutcome × OState × List FileWrite :=
  if user_text == "" then (.badRequest "No text provided", st, [])
  else if truthyQs st.pending_questions then
    if phaseYamlAndReady st then confirmationStep st user_text env
    else answerStep st user_text prompt_detail prompt_yaml env
  else listeningStep st user_text prompt_journal prompt_detail prompt_yaml env

/-! ## Shared lemmas about the turn function -/

theorem specPhase_conf_elim (s : OState) (h : specPhase s = .awaitingYamlConfirmation) :
    truthyQs s.pending_questions = true ∧ phaseYamlAndReady s = true := by
  unfold specPhase at h
  by_cases h1 : truthyQs s.pending_questions = true
  · by_cases h2 : phaseYamlAndReady s = true
    · exact ⟨h1, h2⟩
    · simp [h1, h2] at h
  · simp [h1] at h

theorem specPhase_ada_elim (s : OState) (h : specPhase s = .awaitingDetailAnswer) :
    truthyQs s.pending_questions = true ∧ phaseYamlAndReady s = false := by
  unfold specPhase at h
  by_cases h1 : truthyQs s.pending_questions = true
  · by_cases h2 : phaseYamlAndReady s = true
    · simp [h1, h2] at h
    · exact ⟨h1, Bool.not_eq_true _ ▸ by simpa using h2⟩
  · simp [h1] at h

theorem conversation_eq_confirm (st : OState) (user : String) (pj pd py : Option String)
    (env : TurnEnv) (hne : user ≠ "") (hq : truthyQs st.pending_questions = true)
    (hr : phaseYamlAndReady st = true) :
    conversation st user pj pd py env = confirmationStep st user env := by
  unfold conversation
  simp [hne, hq, hr]

theorem conversation_eq_answer (st : OState) (user : String) (pj pd py : Option String)
    (env : TurnEnv) (hne : user ≠ "") (hq : truthyQs st.pending_questions = true)
    (hr : phaseYamlAndReady st = false) :
    conversation st user pj pd py env = answerStep st user pd py env := by
  unfold conversation
  simp [hne, hq, hr]

theorem conversation_eq_listening (st : OState) (user : String) (pj pd py : Option String)
    (env : TurnEnv) (hne : user ≠ "") (hq : truthyQs st.pending_questions = false) :
    conversation st user pj pd py env = listeningStep st user pj pd py env := by
  unfold conversation
  simp [hne, hq]

theorem listeningStep_eq_error (st : OState) (user : String) (pj pd py : Option String)
    (env : TurnEnv) :
    listeningStep st user pj pd py env =
      (.serverError "too many values to unpack (expected 2)", st, []) := by
  unfold listeningStep unpackJournalPair
  rfl

/-! ## Fixtures for concrete evaluations -/

/-- A journal environment whose model call succeeds with a plain summary. -/
def plainJournalEnv : JournalEnv :=
  ⟨.ok "Noted your update.", .error (), .error ()⟩

/-- A turn environment in which every external call raises and persistence
fails; used where the turn under scrutiny must not depend on them. -/
def inertEnv : TurnEnv :=
  ⟨plainJournalEnv, .error (), .error (), none⟩

/-- A session awaiting yaml confirmation over the staged artifact `foo: bar`. -/
def confirmState : OState :=
  ⟨some .yaml, some [confirmQuestion], none, none, some "foo: bar"⟩

/-- A turn environment whose persistence succeeds. -/
def saveOkEnv : TurnEnv :=
  ⟨plainJournalEnv, .error (), .error (), some "data/generated/agent-20250101T000000Z.yaml"⟩

/-! ## Claim C1 -/

/-- Claim C1: every turn should return a non-empty conversational response,
leave the session in one of the three phases, and never surface an internal
exception.  The code violates this in the highlighted place: in the Listening
phase the route binds `journal_text, brief = journal_run(...)` although
`run_journal` returns a 3-tuple, so the turn raises
`ValueError: too many values to unpack (expected 2)` and the catch-all of the route
returns a raw 500 error instead of a conversational response.  This theorem
evaluates the turn at the failing input: a fresh Listening session, the text
`"hello"`, a configured journal prompt, and a gateway call that succeeds. -/
theorem c1_listening_turn_surfaces_raw_error :
    specPhase emptyState = SpecPhase.listening ∧
    conversation emptyState "hello" (some "journal prompt") (some "detail prompt")
        (some "yaml prompt") inertEnv =
      (.serverError "too many values to unpack (expected 2)", emptyState, []) :=
  ⟨rfl, rfl⟩

/-! ## Claim C5 -/

def c5Text : String := "it keeps crashing and I have to restart it manually every time"

def c5ModelResp : String :=
  "```json\n\x7b\"type\": \"ProblemBrief\", \"summary\": \"app crashes, manual restarts\"\x7d\n```"

def c5Brief : Json :=
  .obj [("type", .str "ProblemBrief"), ("summary", .str "app crashes, manual restarts")]

def c5JournalEnv : JournalEnv := ⟨.ok c5ModelResp, .error (), .error ()⟩

def c5Env : TurnEnv := ⟨c5JournalEnv, .error (), .error (), none⟩

/-- Claim C5: on the Scenario A input (which matches the failure and repetitive
categories) with a configured journal prompt and a model response carrying a
`ProblemBrief`, the orchestrator should emit the acknowledgment, store the
brief, and move into the detail-gathering path.  The code never does this.
In the source two independent defects kill the scenario: inside `run_journal`
the undefined logging helper `_log` (journal.py:96/98) raises `NameError`
after every successful gateway call, swallowed at journal.py:149 into a
neutral `("Noted.", None, None)`, so no brief is ever accepted; and the route
then raises `ValueError` at the 2-name unpacking of the 3-tuple either way
(voice_server.py:605).  The theorem shows the input does match two heuristic
categories, yet the whole turn returns a raw 500 error and the session stays
in Listening with nothing stored — a conclusion insensitive to what
`run_journal` returns, since the unpacking raises on every 3-tuple. -/
theorem c5_scenario_a_turn_errors_without_transition :
    is_problem_heuristic c5Text = true ∧
    2 ≤ categoriesFound (lowerStr c5Text) ∧
    conversation emptyState c5Text (some "journal prompt") (some "detail prompt")
        (some "yaml prompt") c5Env =
      (.serverError "too many values to unpack (expected 2)", emptyState, []) ∧
    specPhase emptyState = SpecPhase.listening :=
  ⟨rfl, by decide, rfl, rfl⟩

/-! ## Claim C4 -/

/-- Claim C4 (counterexample): at `AwaitingYamlConfirmation` the input
`"maybe later"` is NOT ambiguous — it contains the negative token `"later"`,
so the turn is treated as a decline: the response is the decline message (not
the stored confirmation question) and the session is reset rather than left
unchanged. -/
theorem c4_maybe_later_is_a_decline :
    negTokens.any (fun x => pySubstr x (lowerStr (pyStrip "maybe later"))) = true ∧
    conversation confirmState "maybe later" (some "journal prompt") (some "detail prompt")
        (some "yaml prompt") inertEnv =
      (.reply "Okay, I won\x27t generate the YAML right now.", emptyState, []) ∧
    "Okay, I won\x27t generate the YAML right now." ≠ confirmQuestion ∧
    emptyState.ready_yaml ≠ confirmState.ready_yaml :=
  ⟨rfl, rfl, by decide, by decide⟩

/-- Claim C4 (amended): in state `AwaitingYamlConfirmation` with
`readyArtifact` set, a reply matching neither the affirmative-token set nor
the negative-token set re-prompts with the fixed question
`"Would you like me to generate the YAML now? (yes/no)"` (not with the stored
confirmation question) and leaves the session state entirely unchanged;
`"maybe later"` is not such a reply, since it contains the negative token
`"later"`. -/
theorem c4_truly_ambiguous_reply_reprompts_unchanged (st : OState) (reply : String)
    (pj pd py : Option String) (env : TurnEnv)
    (hconf : specPhase st = .awaitingYamlConfirmation)
    (hne : reply ≠ "")
    (haff : affirmTokens.any (fun x => pySubstr x (lowerStr (pyStrip reply))) = false)
    (hneg : negTokens.any (fun x => pySubstr x (lowerStr (pyStrip reply))) = false) :
    conversation st reply pj pd py env =
      (.reply "Would you like me to generate the YAML now? (yes/no)", st, []) := by
  obtain ⟨hq, hr⟩ := specPhase_conf_elim st hconf
  rw [conversation_eq_confirm st reply pj pd py env hne hq hr]
  unfold confirmationStep
  simp [haff, hneg]

/-- Witness for the amended C4 at a concrete genuinely ambiguous reply. -/
theorem c4_truly_ambiguous_reply_reprompts_unchanged_witness :
    conversation confirmState "hmm" (some "journal prompt") (some "detail prompt")
        (some "yaml prompt") inertEnv =
      (.reply "Would you like me to generate the YAML now? (yes/no)", confirmState, []) :=
  c4_truly_ambiguous_reply_reprompts_unchanged confirmState "hmm" (some "journal prompt")
    (some "detail prompt") (some "yaml prompt") inertEnv (by decide) (by decide)
    (by decide) (by decide)

/-! ## Claim C6 -/

/-- Claim C6 (counterexample): a reply can match the negative-token set and
still persist the artifact, because the affirmative-token check runs first:
`"ok, no thanks"` contains the negative token `"no"`, yet the turn saves the
artifact (one file is written) instead of declining. -/
theorem c6_negative_matching_reply_can_persist :
    negTokens.any (fun x => pySubstr x (lowerStr (pyStrip "ok, no thanks"))) = true ∧
    conversation confirmState "ok, no thanks" (some "journal prompt") (some "detail prompt")
        (some "yaml prompt") saveOkEnv =
      (.reply "YAML generated and saved to: data/generated/agent-20250101T000000Z.yaml",
       emptyState, [⟨"data/generated/agent-20250101T000000Z.yaml", "foo: bar\n"⟩]) ∧
    [(⟨"data/generated/agent-20250101T000000Z.yaml", "foo: bar\n"⟩ : FileWrite)] ≠ [] :=
  ⟨rfl, rfl, by simp⟩

/-- Claim C6 (amended): in state `AwaitingYamlConfirmation`, for every stored
artifact, a reply that matches the negative-token set and does NOT match the
affirmative-token set (the affirmative check runs first) returns the session
to Listening with `readyArtifact == null` and persists nothing. -/
theorem c6_decline_resets_session (st : OState) (reply : String)
    (pj pd py : Option String) (env : TurnEnv)
    (hconf : specPhase st = .awaitingYamlConfirmation)
    (hne : reply ≠ "")
    (haff : affirmTokens.any (fun x => pySubstr x (lowerStr (pyStrip reply))) = false)
    (hneg : negTokens.any (fun x => pySubstr x (lowerStr (pyStrip reply))) = true) :
    conversation st reply pj pd py env =
      (.reply "Okay, I won\x27t generate the YAML right now.", emptyState, []) ∧
    specPhase emptyState = .listening ∧ emptyState.ready_yaml = none := by
  obtain ⟨hq, hr⟩ := specPhase_conf_elim st hconf
  rw [conversation_eq_confirm st reply pj pd py env hne hq hr]
  unfold confirmationStep
  simp [haff, hneg]
  exact ⟨rfl, rfl⟩

/-- Witness for the amended C6 at the reply `"no"`. -/
theorem c6_decline_resets_session_witness :
    conversation confirmState "no" (some "journal prompt") (some "detail prompt")
        (some "yaml prompt") saveOkEnv =
      (.reply "Okay, I won\x27t generate the YAML right now.", emptyState, []) :=
  (c6_decline_resets_session confirmState "no" (some "journal prompt") (some "detail prompt")
    (some "yaml prompt") saveOkEnv (by decide) (by decide) (by decide) (by decide)).1

/-! ## Claim C10 -/

/-- Claim C10: in the confirmation state the affirmative-token check is
evaluated before the negative-token check, both by case-insensitive substring
matching on the stripped reply, so a reply containing tokens from BOTH sets is
treated as an affirmation: the artifact is persisted (one file, the stored
artifact right-stripped plus a newline) and the session resets. -/
theorem c10_affirmative_check_runs_first (st : OState) (reply y p : String)
    (pj pd py : Option String) (env : TurnEnv)
    (hconf : specPhase st = .awaitingYamlConfirmation)
    (hready : st.ready_yaml = some y)
    (hne : reply ≠ "")
    (haff : affirmTokens.any (fun x => pySubstr x (lowerStr (pyStrip reply))) = true)
    (hneg : negTokens.any (fun x => pySubstr x (lowerStr (pyStrip reply))) = true)
    (hsave : env.savePath = some p) (hp : p ≠ "") :
    conversation st reply pj pd py env =
      (.reply ("YAML generated and saved to: " ++ p), emptyState,
       [⟨p, pyRstrip y ++ "\n"⟩]) := by
  obtain ⟨hq, hr⟩ := specPhase_conf_elim st hconf
  rw [conversation_eq_confirm st reply pj pd py env hne hq hr]
  unfold confirmationStep save_generated_yaml
  simp [haff, hready, hsave, hp]

/-- Witness for C10 at the example reply named by the claim itself (with
mixed case, exhibiting the case-insensitive matching): it contains the
affirmative token `"generate"` and the negative token `"no"`, and the
turn persists the artifact and resets. -/
theorem c10_affirmative_check_runs_first_witness :
    conversation confirmState "No, don\x27t GENERATE" (some "journal prompt")
        (some "detail prompt") (some "yaml prompt") saveOkEnv =
      (.reply "YAML generated and saved to: data/generated/agent-20250101T000000Z.yaml",
       emptyState, [⟨"data/generated/agent-20250101T000000Z.yaml", "foo: bar\n"⟩]) :=
  c10_affirmative_check_runs_first confirmState "No, don\x27t GENERATE" "foo: bar"
    "data/generated/agent-20250101T000000Z.yaml" (some "journal prompt")
    (some "detail prompt") (some "yaml prompt") saveOkEnv (by decide) rfl (by decide)
    (by decide) (by decide) rfl (by decide)

/-- Shared helper: an affirmative reply at a confirmation state whose
persistence succeeds saves the right-stripped artifact plus a newline and
resets the session. -/
theorem confirmation_affirm_saves (s : OState) (t : String) (pj pd py : Option String)
    (env : TurnEnv) (y p : String)
    (hq : truthyQs s.pending_questions = true)
    (hphase : s.phase = some Phase.yaml)
    (hready : s.ready_yaml = some y) (hy : y ≠ "")
    (hne : t ≠ "")
    (haff : affirmTokens.any (fun x => pySubstr x (lowerStr (pyStrip t))) = true)
    (hsave : env.savePath = some p) (hp : p ≠ "") :
    conversation s t pj pd py env =
      (.reply ("YAML generated and saved to: " ++ p), emptyState,
       [⟨p, pyRstrip y ++ "\n"⟩]) := by
  have hr : phaseYamlAndReady s = true := by
    simp [phaseYamlAndReady, hphase, optStrTruthy, hready, hy]
  rw [conversation_eq_confirm s t pj pd py env hne hq hr]
  unfold confirmationStep save_generated_yaml
  simp [haff, hready, hsave, hp]

/-! ## Claim C3 -/

def c3DetailResp : String :=
  "```json\n\x7b\"type\": \"DetailSpec\", \"service\": \"api\", \"frequency\": \"hourly\"\x7d\n```"

def c3SpecObj : Json :=
  .obj [("type", .str "DetailSpec"), ("service", .str "api"), ("frequency", .str "hourly")]

def c3YamlResp : String := "```yaml\nfoo: bar\n```"

def c3Env1 : TurnEnv := ⟨plainJournalEnv, .ok c3DetailResp, .ok c3YamlResp, none⟩

/-- A session awaiting a detail answer with a stored brief. -/
def adaState : OState :=
  ⟨some .detail, some ["Which service?"], some (.obj [("type", .str "ProblemBrief")]), none, none⟩

/-- The session state after the answering turn of the concrete C3 run. -/
def c3AfterTurn1 : OState :=
  (conversation adaState "the api service, hourly" (some "journal prompt")
      (some "detail prompt") (some "yaml prompt") c3Env1).2.1

/-- Claim C3 (counterexample): the persisted file content does NOT equal the
artifact stored in `readyArtifact` before confirmation — `_save_generated_yaml`
writes `yaml_text.rstrip() + "\n"`, and the stored artifact (a stripped fence
content) never ends in a newline.  Concretely: the answering turn stages
`"foo: bar"`, and the affirmative confirmation persists `"foo: bar\n"`. -/
theorem c3_persisted_content_gains_newline :
    c3AfterTurn1.ready_yaml = some "foo: bar" ∧
    specPhase c3AfterTurn1 = .awaitingYamlConfirmation ∧
    (conversation c3AfterTurn1 "yes" (some "journal prompt") (some "detail prompt")
        (some "yaml prompt") saveOkEnv).2.2 =
      [⟨"data/generated/agent-20250101T000000Z.yaml", "foo: bar\n"⟩] ∧
    "foo: bar\n" ≠ "foo: bar" :=
  ⟨rfl, rfl, rfl, by decide⟩

/-- Claim C3 (amended): a `DetailSpec` whose generator run yields an artifact,
staged into `readyArtifact` behind the confirmation question, followed by an
affirmative confirmation whose persistence succeeds, results in exactly one
persisted file whose content equals the stored artifact right-stripped with a
single newline appended (not byte-identical to `readyArtifact`). -/
theorem c3_roundtrip_persists_rstripped_artifact (st : OState) (t1 t2 : String)
    (pj pd py : Option String) (env1 env2 : TurnEnv)
    (fu m : Option String) (sp : Json) (y p : String)
    (hada : specPhase st = .awaitingDetailAnswer)
    (h1 : t1 ≠ "")
    (hd : run_detail (pyOrEmptyObj st.problem_brief) t1 st.detail_spec pd env1.detailCall =
            (fu, some sp))
    (hsp : pyTruthy sp = true)
    (hg : run_yaml sp py env1.yamlCall = (m, some y))
    (hy : y ≠ "")
    (h2 : t2 ≠ "")
    (haff : affirmTokens.any (fun x => pySubstr x (lowerStr (pyStrip t2))) = true)
    (hsave : env2.savePath = some p) (hp : p ≠ "") :
    (conversation st t1 pj pd py env1).2.1.ready_yaml = some y ∧
    conversation (conversation st t1 pj pd py env1).2.1 t2 pj pd py env2 =
      (.reply ("YAML generated and saved to: " ++ p), emptyState,
       [⟨p, pyRstrip y ++ "\n"⟩]) := by
  obtain ⟨hq, hr⟩ := specPhase_ada_elim st hada
  have hturn1 : conversation st t1 pj pd py env1 =
      (.reply confirmQuestion,
       { st with detail_spec := some sp, ready_yaml := some y, phase := some .yaml,
                 pending_questions := some [confirmQuestion] }, []) := by
    rw [conversation_eq_answer st t1 pj pd py env1 h1 hq hr]
    unfold answerStep
    rw [hd]
    unfold specToYaml
    simp [optJsonTruthy, hsp, hg, optStrTruthy, hy]
  rw [hturn1]
  exact ⟨rfl, confirmation_affirm_saves _ t2 pj pd py env2 y p rfl rfl rfl hy h2 haff hsave hp⟩

/-- Witness for the amended C3 on the concrete run used by the counterexample. -/
theorem c3_roundtrip_persists_rstripped_artifact_witness :
    (conversation adaState "the api service, hourly" (some "journal prompt")
        (some "detail prompt") (some "yaml prompt") c3Env1).2.1.ready_yaml = some "foo: bar" ∧
    conversation (conversation adaState "the api service, hourly" (some "journal prompt")
        (some "detail prompt") (some "yaml prompt") c3Env1).2.1 "yes please"
        (some "journal prompt") (some "detail prompt") (some "yaml prompt") saveOkEnv =
      (.reply ("YAML generated and saved to: data/generated/agent-20250101T000000Z.yaml"),
       emptyState,
       [⟨"data/generated/agent-20250101T000000Z.yaml", "foo: bar\n"⟩]) :=
  c3_roundtrip_persists_rstripped_artifact adaState "the api service, hourly" "yes please"
    (some "journal prompt") (some "detail prompt") (some "yaml prompt") c3Env1 saveOkEnv
    none none c3SpecObj "foo: bar" "data/generated/agent-20250101T000000Z.yaml"
    (by decide) (by decide) rfl rfl rfl (by decide) (by decide) (by decide) rfl (by decide)

/-! ## Claim C7 -/

/-- Claim C7: if the completion gateway raises during the elicitor call while
the session awaits a detail answer, the turn replies with the fixed fallback
clarifying question, the exception is not propagated (the outcome is a reply,
not an error), the session remains in `AwaitingDetailAnswer`, and the stored
`detail_spec` is untouched. -/
theorem c7_elicitor_failure_falls_back (st : OState) (user_text : String)
    (pj pd py : Option String) (d : String) (env : TurnEnv)
    (hada : specPhase st = .awaitingDetailAnswer)
    (hne : user_text ≠ "")
    (hpd : pd = some d) (hd : d ≠ "")
    (hfail : env.detailCall = .error ()) :
    conversation st user_text pj pd py env =
      (.reply "Could you clarify a couple details (service, frequency, action)?",
       { st with
           pending_questions :=
             some ["Could you clarify a couple details (service, frequency, action)?"],
           phase := some .detail }, []) ∧
    (conversation st user_text pj pd py env).2.1.detail_spec = st.detail_spec ∧
    specPhase (conversation st user_text pj pd py env).2.1 = .awaitingDetailAnswer := by
  obtain ⟨hq, hr⟩ := specPhase_ada_elim st hada
  have hmain : conversation st user_text pj pd py env =
      (.reply "Could you clarify a couple details (service, frequency, action)?",
       { st with
           pending_questions :=
             some ["Could you clarify a couple details (service, frequency, action)?"],
           phase := some .detail }, []) := by
    rw [conversation_eq_answer st user_text pj pd py env hne hq hr]
    unfold answerStep run_detail
    simp [hpd, optStrTruthy, hd, hfail, optJsonTruthy, pyOrStr, pendingFromOpt]
  rw [hmain]
  exact ⟨rfl, rfl, rfl⟩

/-- Witness for C7: a concrete awaiting-detail session whose elicitor call
raises. -/
theorem c7_elicitor_failure_falls_back_witness :
    conversation adaState "every morning" (some "journal prompt") (some "detail prompt")
        (some "yaml prompt") inertEnv =
      (.reply "Could you clarify a couple details (service, frequency, action)?",
       { adaState with
           pending_questions :=
             some ["Could you clarify a couple details (service, frequency, action)?"],
           phase := some .detail }, []) :=
  (c7_elicitor_failure_falls_back adaState "every morning" (some "journal prompt")
    (some "detail prompt") (some "yaml prompt") "detail prompt" inertEnv (by decide)
    (by decide) rfl (by decide) rfl).1

/-! ## Claim C2 -/

/-- Claim C2: the classifier yields a `ProblemBrief` only when BOTH the model
response carries a json fence decoding to a (truthy) dict whose `type` is
`"ProblemBrief"` AND the heuristic gate finds keywords from at least two
distinct categories of the six-category taxonomy in the raw user text; and
for text matching at most one category the classifier never returns a brief,
whatever the model proposed. -/
theorem c2_classifier_double_gate (user_text : String) (pj : Option String)
    (env : JournalEnv) :
    (∀ b, (run_journal user_text pj env).2.1 = some b →
       (∃ content, env.call = .ok content ∧ extract_json_from_fence content = some b ∧
          (pyTruthy b && isDict b && typeIs b "ProblemBrief") = true) ∧
       is_problem_heuristic user_text = true ∧
       2 ≤ categoriesFound (lowerStr user_text)) ∧
    (categoriesFound (lowerStr user_text) ≤ 1 →
       (run_journal user_text pj env).2.1 = none) := by
  constructor
  · intro b h
    unfold run_journal at h
    split at h
    · simp at h
    · split at h
      · simp at h
      · rename_i content hcall
        split at h
        · rename_i brief hext
          split at h
          · rename_i hgate
            have hb : b = brief := by
              split at h
              · simpa using h.symm
              · split at h
                split at h <;> simpa using h.symm
            subst hb
            have h2 : is_problem_heuristic user_text = true := by
              simp only [Bool.and_eq_true] at hgate
              exact hgate.2
            have h1 : (pyTruthy b && isDict b && typeIs b "ProblemBrief") = true := by
              simp only [Bool.and_eq_true] at hgate ⊢
              exact hgate.1
            refine ⟨⟨content, hcall, hext, h1⟩, h2, ?_⟩
            unfold is_problem_heuristic at h2
            split at h2
            · exact absurd h2 (by simp)
            · exact of_decide_eq_true h2
          · simp at h
        · simp at h
  · intro hcat
    have hheur : is_problem_heuristic user_text = false := by
      unfold is_problem_heuristic
      split
      · rfl
      · simp only [decide_eq_false_iff_not]
        omega
    unfold run_journal
    split
    · rfl
    · split
      · rfl
      · rename_i content hcall
        split
        · rename_i brief hext
          rw [if_neg (by simp [hheur])]
        · rfl

def c2SlowResp : String :=
  "```json\n\x7b\"type\": \"ProblemBrief\", \"summary\": \"thing is slow\"\x7d\n```"

def c2SlowEnv : JournalEnv := ⟨.ok c2SlowResp, .error (), .error ()⟩

/-- Witness for C2: the model proposes a `ProblemBrief` for
`"it is a bit too slow today"`, but the text matches only the reliability
category, so no brief is returned; and on the two-category Scenario A text the
accepted brief indeed comes with at least two matched categories. -/
theorem c2_classifier_double_gate_witness :
    (run_journal "it is a bit too slow today" (some "journal prompt") c2SlowEnv).2.1 = none ∧
    2 ≤ categoriesFound (lowerStr c5Text) :=
  ⟨(c2_classifier_double_gate "it is a bit too slow today" (some "journal prompt")
      c2SlowEnv).2 (by decide),
   ((c2_classifier_double_gate c5Text (some "journal prompt") c5JournalEnv).1
      c5Brief rfl).2.2⟩

/-! ## Claim C8 -/

def c8Content : String :=
  "```yaml ```\n```json\n\x7b\"type\": \"MissingInfoRequest\", \"questions\": [\"What service?\"]\x7d\n```"

/-- Claim C8 (counterexample): a yaml fence can be present and yet the
generator does not return its trimmed content: a fence whose trimmed content
is empty is falsy, so the code falls through — here to a `MissingInfoRequest`
question, although the claimed priority order says a present fence wins. -/
theorem c8_empty_fence_falls_through :
    extract_yaml_from_fence c8Content = some "" ∧
    run_yaml (.obj [("service", .str "api")]) (some "yaml prompt") (.ok c8Content) =
      (some "What service?", none) ∧
    (some "What service?" : Option String) ≠ none :=
  ⟨rfl, rfl, by decide⟩

/-- Claim C8 (amended): the priority order of the generator, with the one
correction that only a yaml fence with NONEMPTY trimmed content is returned
as the artifact (an empty-trimmed fence is falsy and falls through): (a) with
no yaml prompt the generator returns `(null, null)` independently of the
gateway; (b) a nonempty-trimmed yaml fence wins, returned with no question;
(c) otherwise a decoded truthy dict of type `MissingInfoRequest` yields its
first question (or the default) and no artifact; (d) otherwise the stripped
raw response is the artifact. -/
theorem c8_generator_priority (spec : Json) :
    (∀ call, run_yaml spec none call = (none, none)) ∧
    (∀ p content y, p ≠ "" → extract_yaml_from_fence content = some y → y ≠ "" →
       run_yaml spec (some p) (.ok content) = (none, some y)) ∧
    (∀ p content obj, p ≠ "" →
       (extract_yaml_from_fence content = none ∨ extract_yaml_from_fence content = some "") →
       extract_json_from_fence content = some obj →
       (pyTruthy obj && isDict obj && typeIs obj "MissingInfoRequest") = true →
       run_yaml spec (some p) (.ok content) =
         (some (firstQuestionOr obj "I need one more detail to finalize the YAML."), none)) ∧
    (∀ p content, p ≠ "" →
       (extract_yaml_from_fence content = none ∨ extract_yaml_from_fence content = some "") →
       (extract_json_from_fence content = none ∨
        ∃ obj, extract_json_from_fence content = some obj ∧
          (pyTruthy obj && isDict obj && typeIs obj "MissingInfoRequest") = false) →
       run_yaml spec (some p) (.ok content) = (none, some (pyStrip content))) := by
  refine ⟨fun call => rfl, ?_, ?_, ?_⟩
  · intro p content y hp hext hy
    unfold run_yaml
    have hps : optStrTruthy (some p) = true := by simp [optStrTruthy, hp]
    rw [show (!optStrTruthy (some p)) = false by simp [hps]]
    simp only [Bool.false_eq_true, if_false]
    rw [hext]
    simp [hy]
  · intro p content obj hp hext hjson hgate
    unfold run_yaml
    have hps : (optStrTruthy (some p)) = true := by simp [optStrTruthy, hp]
    rw [show (!optStrTruthy (some p)) = false by simp [hps]]
    simp only [Bool.false_eq_true, if_false]
    rcases hext with hext | hext <;> rw [hext] <;> simp [hjson, hgate]
  · intro p content hp hext hjson
    unfold run_yaml
    have hps : (optStrTruthy (some p)) = true := by simp [optStrTruthy, hp]
    rw [show (!optStrTruthy (some p)) = false by simp [hps]]
    simp only [Bool.false_eq_true, if_false]
    rcases hext with hext | hext <;>
      rcases hjson with hjson | ⟨obj, hjson, hgate⟩
    · rw [hext]; simp [hjson]
    · rw [hext]; simp [hjson, hgate]
    · rw [hext]; simp [hjson]
    · rw [hext]; simp [hjson, hgate]

def c8YamlOnly : String := "```yaml\nagent:\n  name: demo\n```"

/-- Witness for the amended C8, applying each of its four parts at concrete
inputs. -/
theorem c8_generator_priority_witness :
    run_yaml (.obj [("service", .str "api")]) none (.ok c8YamlOnly) = (none, none) ∧
    run_yaml (.obj [("service", .str "api")]) (some "yaml prompt") (.ok c8YamlOnly) =
      (none, some "agent:\n  name: demo") ∧
    run_yaml (.obj [("service", .str "api")]) (some "yaml prompt")
        (.ok "```json\n\x7b\"type\": \"MissingInfoRequest\", \"questions\": []\x7d\n```") =
      (some "I need one more detail to finalize the YAML.", none) ∧
    run_yaml (.obj [("service", .str "api")]) (some "yaml prompt") (.ok "plain text answer") =
      (none, some "plain text answer") :=
  ⟨(c8_generator_priority (.obj [("service", .str "api")])).1 (.ok c8YamlOnly),
   (c8_generator_priority (.obj [("service", .str "api")])).2.1 "yaml prompt" c8YamlOnly
     "agent:\n  name: demo" (by decide) rfl (by decide),
   (c8_generator_priority (.obj [("service", .str "api")])).2.2.1 "yaml prompt"
     "```json\n\x7b\"type\": \"MissingInfoRequest\", \"questions\": []\x7d\n```"
     (.obj [("type", .str "MissingInfoRequest"), ("questions", .arr [])])
     (by decide) (Or.inl rfl) rfl rfl,
   (c8_generator_priority (.obj [("service", .str "api")])).2.2.2 "yaml prompt"
     "plain text answer" (by decide) (Or.inl rfl) (Or.inl rfl)⟩

/-! ## Claim C9 -/

/-- The specification invariant: a non-null `readyArtifact` implies the
session is awaiting yaml confirmation. -/
def readyInv (s : OState) : Prop :=
  ∀ y, s.ready_yaml = some y → specPhase s = SpecPhase.awaitingYamlConfirmation

theorem readyInv_of_none (s : OState) (h : s.ready_yaml = none) : readyInv s := by
  intro y hy
  rw [h] at hy
  cases hy

theorem readyInv_empty : readyInv emptyState :=
  readyInv_of_none emptyState rfl

/-- Under the invariant, a session in the answering branch (pending question,
but not confirmation) holds no artifact. -/
theorem ready_none_of_inv (s : OState) (hinv : readyInv s)
    (hq : truthyQs s.pending_questions = true) (hr : phaseYamlAndReady s = false) :
    s.ready_yaml = none := by
  cases hready : s.ready_yaml with
  | none => rfl
  | some y =>
    have hconf := hinv y hready
    unfold specPhase at hconf
    simp [hq, hr] at hconf

/-- Claim C9: every turn preserves the invariant `readyArtifact != null ⇒
phase == AwaitingYamlConfirmation` — each path that stores an artifact also
installs the confirmation question and the yaml phase in the same step, and
each path that leaves the confirmation state clears the artifact. -/
theorem c9_ready_artifact_invariant_preserved (s : OState) (t : String)
    (pj pd py : Option String) (env : TurnEnv) (hinv : readyInv s) :
    readyInv (conversation s t pj pd py env).2.1 := by
  by_cases ht : t = ""
  · unfold conversation
    simp only [ht]
    simpa using hinv
  · by_cases hq : truthyQs s.pending_questions = true
    · by_cases hr : phaseYamlAndReady s = true
      · rw [conversation_eq_confirm s t pj pd py env ht hq hr]
        unfold confirmationStep
        by_cases haff : (affirmTokens.any fun x => pySubstr x (lowerStr (pyStrip t))) = true
        · simp only [haff, if_true]
          exact readyInv_empty
        · have haff' : (affirmTokens.any fun x => pySubstr x (lowerStr (pyStrip t))) = false := by
            simpa using haff
          simp only [haff', Bool.false_eq_true, if_false]
          by_cases hneg : (negTokens.any fun x => pySubstr x (lowerStr (pyStrip t))) = true
          · simp only [hneg, if_true]
            exact readyInv_empty
          · have hneg' : (negTokens.any fun x => pySubstr x (lowerStr (pyStrip t))) = false := by
              simpa using hneg
            simp only [hneg', Bool.false_eq_true, if_false]
            exact hinv
      · have hr' : phaseYamlAndReady s = false := by simpa using hr
        rw [conversation_eq_answer s t pj pd py env ht hq hr']
        have hnone := ready_none_of_inv s hinv hq hr'
        unfold answerStep
        split
        rename_i fu sp hrd
        by_cases hsp : optJsonTruthy sp = true
        · rw [if_pos hsp]
          unfold specToYaml
          split
          rename_i m yt hry
          by_cases hyt : optStrTruthy yt = true
          · rw [if_pos hyt]
            intro y hy
            simp only at hy ⊢
            simp [specPhase, truthyQs, phaseYamlAndReady, hyt]
          · rw [if_neg hyt]
            exact readyInv_of_none _ hnone
        · rw [if_neg hsp]
          exact readyInv_of_none _ hnone
    · have hq' : truthyQs s.pending_questions = false := by simpa using hq
      rw [conversation_eq_listening s t pj pd py env ht hq', listeningStep_eq_error]
      exact hinv

/-- Witness for C9: applied at a concrete confirmation-state session whose
stored artifact survives an ambiguous reply, yielding the confirmation phase
again. -/
theorem c9_ready_artifact_invariant_preserved_witness :
    specPhase (conversation confirmState "hm, wait" (some "journal prompt")
        (some "detail prompt") (some "yaml prompt") inertEnv).2.1 =
      SpecPhase.awaitingYamlConfirmation :=
  c9_ready_artifact_invariant_preserved confirmState "hm, wait" (some "journal prompt")
    (some "detail prompt") (some "yaml prompt") inertEnv
    (fun _ _ => rfl) "foo: bar" rfl
